import Mathlib

/-!
Shallow embedding of the file-fabric batch-generation orchestrator
(src/generate.ts) together with the generator entry points it dispatches to
(src/generators/doc_generators.ts, image_generator.ts, audio_generator.ts,
video_generator.ts, archive_generator.ts).

JavaScript values are modelled by `JSValue`; JavaScript numbers by `JSNum`
(NaN, the two infinities, or an exact finite value in the rationals, which
contain every finite IEEE double).  File-system and logging side effects are
modelled as an explicit `Effect` trace; a computation returns the trace of the
effects it performed before finishing or failing, paired with the error it
threw, if any.  Synthetic filler content produced by the external faker
collaborator is modelled by the opaque-tagged constructors
`ContentLine.synthetic` / `RowOut.fakeRow` / `CSVOut.fake`.
-/

namespace FileFabric

/-- Model of a JavaScript number: NaN, an infinity, or a finite value. -/
inductive JSNum where
  | nan
  | inf
  | negInf
  | finite (q : ℚ)
deriving DecidableEq, Repr

/-- Model of a JavaScript value as found in a parsed YAML plan or a JSON
request body. -/
inductive JSValue where
  | num (n : JSNum)
  | str (s : String)
  | bool (b : Bool)
  | null
  | undefined
  | arr (xs : List JSValue)
  | obj (fields : List (String × JSValue))

/-- Number.isFinite: true only for finite numbers, no coercion. -/
def JSNum.isFinite : JSNum → Bool
  | .finite _ => true
  | _ => false

/-- True for a finite, strictly positive number
(the test Number.isFinite(v) and not v <= 0). -/
def JSNum.posFinite : JSNum → Bool
  | .finite q => decide (0 < q)
  | _ => false

/-- Property access v.k: fields of an object, undefined otherwise
(plan items are YAML mappings, so the handlers only ever reach the
object case on well-formed plans). -/
def JSValue.getField : JSValue → String → JSValue
  | .obj fs, k => (fs.lookup k).getD .undefined
  | _, _ => .undefined

/-- JavaScript truthiness. -/
def JSValue.truthy : JSValue → Bool
  | .undefined => false
  | .null => false
  | .bool b => b
  | .num .nan => false
  | .num (.finite q) => decide (q ≠ 0)
  | .num _ => true
  | .str s => decide (s ≠ "")
  | .arr _ => true
  | .obj _ => true

/-- The test typeof v === "object" (true for objects, arrays and null). -/
def JSValue.isObjectType : JSValue → Bool
  | .obj _ => true
  | .arr _ => true
  | .null => true
  | _ => false

/-- The test v is undefined. -/
def JSValue.isUndefined : JSValue → Bool
  | .undefined => true
  | _ => false

/-- Object.keys: key list of an object (insertion order), index strings for
an array, empty otherwise. -/
def jsKeys : JSValue → List String
  | .obj fs => fs.map Prod.fst
  | .arr xs => (List.range xs.length).map (fun i => toString i)
  | _ => []

/-- String.prototype.trim: strip leading and trailing whitespace. -/
def jsTrim (s : String) : String :=
  ⟨((s.data.dropWhile Char.isWhitespace).reverse.dropWhile Char.isWhitespace).reverse⟩

/-! ### Field validators (generate.ts lines 41-68) -/

/-- expectString: a string with non-empty trim, else a validation error. -/
def expectString (v : JSValue) (loc : String) : Except String String :=
  match v with
  | .str s => if jsTrim s = "" then .error (loc ++ " must be a non-empty string") else .ok s
  | _ => .error (loc ++ " must be a non-empty string")

/-- expectPositiveInt: rejects when not Number.isFinite(v), or v <= 0, or
Math.floor(v) differs from v (for a finite rational, Math.floor(v) equals v
exactly when the reduced denominator is 1). -/
def expectPositiveInt (v : JSValue) (loc : String) : Except String ℚ :=
  match v with
  | .num (.finite q) =>
      if q ≤ 0 ∨ q.den ≠ 1 then .error (loc ++ " must be a positive integer")
      else .ok q
  | _ => .error (loc ++ " must be a positive integer")

/-- expectPositiveNumber: rejects when not Number.isFinite(v) or v <= 0. -/
def expectPositiveNumber (v : JSValue) (loc : String) : Except String ℚ :=
  match v with
  | .num (.finite q) =>
      if q ≤ 0 then .error (loc ++ " must be a positive number")
      else .ok q
  | _ => .error (loc ++ " must be a positive number")

/-- expectBoolean. -/
def expectBoolean (v : JSValue) (loc : String) : Except String Bool :=
  match v with
  | .bool b => .ok b
  | _ => .error (loc ++ " must be a boolean")

/-! ### Content produced by the generators -/

/-- One line of document content: either a cycled entry of the supplied
texts, or one unit of synthetic filler from the external content generator
(faker.lorem.sentence()); the index tags which call produced it. -/
inductive ContentLine where
  | synthetic (i : Nat)
  | given (s : String)
deriving DecidableEq, Repr

/-- One body row of an XLSX sheet: either a cycled entry of the supplied
texts rows, or a synthetic [fullName, email] row from faker. -/
inductive RowOut where
  | fakeRow (i : Nat)
  | givenRow (cells : List JSValue)

/-- The records written by generateCSV: the explicit data records, or `rows`
synthetic \x7bname, email\x7d records from faker. -/
inductive CSVOut where
  | explicitData (records : List JSValue)
  | fake (rows : Nat)

/-- Observable side effects of a run, in order of occurrence. -/
inductive Effect where
  /-- ensureDirFor: mkdirSync of the parent directory of a target path. -/
  | mkdirFor (path : String)
  /-- mkdirSync of the root-level outputDir hint. -/
  | mkdirDirect (dir : String)
  /-- an info(...) log line on stdout. -/
  | notice (msg : String)
  /-- an fs.unlinkSync (performed only by the HTTP layer cleanup). -/
  | unlink (path : String)
  | genJSON (path : String) (pretty : Bool) (data : Option JSValue)
  | genPDF (path : String) (title : String) (fontSize : ℚ) (content : List ContentLine)
  | genTXT (path : String) (content : List ContentLine)
  | genDOCX (path : String) (content : List ContentLine)
  | genPPTX (path : String) (slides : List (String × List ContentLine))
  | genXLSX (path : String) (sheets : List (String × List RowOut))
  | genCSV (path : String) (records : CSVOut)
  | genImage (path : String) (width height : ℚ) (format : String)
  | genWAV (path : String) (lengthSeconds : JSNum)
  /-- the ffmpeg transcode of the written WAV into an MP3 at path. -/
  | transcodeMP3 (wavPath path : String)
  | genMP4 (path : String) (duration : JSNum) (resolution : String) (fps : JSNum)
      (background : String) (crf : JSNum) (pixelFormat preset : String)
      (silentAudio : Bool)
  | genZIP (path : String) (files : List String)
  | genRAR (path : String) (files : List String) (rarPath : String)
  | sendFile (path : String)

/-- A run outcome: the effects performed, and the error thrown if any. -/
abbrev RunOut := List Effect × Option String

/-- Content lines for generateTXT, generatePDF, generateDOCX and each PPTX
slide: explicit texts cycled by index mod length, or synthetic filler when
texts is empty or was not supplied (the generators default texts to []). -/
def mkLines (n : Nat) (texts : List String) : List ContentLine :=
  if texts.length = 0 then
    (List.range n).map ContentLine.synthetic
  else
    (List.range n).map (fun i => ContentLine.given (texts.getD (i % texts.length) ""))

/-- Body rows for one XLSX sheet: explicit rows cycled by index mod length,
or synthetic faker rows when texts is empty or was not supplied. -/
def mkRows (n : Nat) (texts : List (List JSValue)) : List RowOut :=
  if texts.length = 0 then
    (List.range n).map RowOut.fakeRow
  else
    (List.range n).map (fun i => RowOut.givenRow (texts.getD (i % texts.length) []))

/-- Numeric field already validated to be a positive integer, as the Nat it
denotes (used where the source loops for i = 0; i < lines; i++). -/
def ratToNat (q : ℚ) : Nat := q.num.toNat

/-! ### String.prototype.replace with a plain-string pattern -/

/-- Replace the first occurrence of pat (non-empty in every use) in a
character list; the list is returned unchanged when pat does not occur. -/
def listReplaceFirst (pat rep : List Char) : List Char → List Char
  | [] => []
  | c :: cs =>
      if pat.isPrefixOf (c :: cs) then rep ++ (c :: cs).drop pat.length
      else c :: listReplaceFirst pat rep cs

/-- Whether pat occurs as a contiguous substring. -/
def listHasSubstr (pat : List Char) : List Char → Bool
  | [] => pat.isEmpty
  | c :: cs => pat.isPrefixOf (c :: cs) || listHasSubstr pat cs

/-- path.replace(pat, rep) for string pat: first occurrence only. -/
def replaceFirst (s pat rep : String) : String :=
  ⟨listReplaceFirst pat.data rep.data s.data⟩

/-- Whether pat occurs in s. -/
def hasSubstr (s pat : String) : Bool := listHasSubstr pat.data s.data

/-! ### Small helpers shared by the handlers and generators -/

/-- The test texts.every(t => typeof t === "string"). -/
def allStrings : List JSValue → Bool
  | [] => true
  | .str _ :: xs => allStrings xs
  | _ => false

/-- The string elements of a list all of whose elements are strings. -/
def getStrings : List JSValue → List String
  | [] => []
  | .str s :: xs => s :: getStrings xs
  | _ :: xs => getStrings xs

/-- Object.entries: key-value pairs of an object in insertion order, indexed
elements for an array. -/
def jsEntries : JSValue → List (String × JSValue)
  | .obj fs => fs
  | .arr xs => xs.enum.map (fun p => (toString p.1, p.2))
  | _ => []

/-! ### Generators (doc_generators.ts, image/audio/video/archive generators) -/

/-- generateJSON: writes data when given, else a synthetic faker record
(modelled by the none payload of the effect). -/
def generateJSON (path : String) (pretty : Bool) (data : Option JSValue) : RunOut :=
  ([.genJSON path pretty data], none)

/-- generatePDF: defaults title "Fake PDF" and fontSize 20, then writes the
cycled or synthetic content lines. -/
def generatePDF (path : String) (title : Option String) (fontSize : Option ℚ)
    (lines : ℚ) (texts : Option (List String)) : RunOut :=
  ([.genPDF path (title.getD "Fake PDF") (fontSize.getD 20)
      (mkLines (ratToNat lines) (texts.getD []))], none)

/-- generateTXT. -/
def generateTXT (path : String) (lines : ℚ) (texts : Option (List String)) : RunOut :=
  ([.genTXT path (mkLines (ratToNat lines) (texts.getD []))], none)

/-- generateDOCX. -/
def generateDOCX (path : String) (lines : ℚ) (texts : Option (List String)) : RunOut :=
  ([.genDOCX path (mkLines (ratToNat lines) (texts.getD []))], none)

/-- Per-slide lines count as read back by generatePPTX from the already
validated slides object. -/
def slideLines (v : JSValue) : Nat :=
  match v.getField "lines" with
  | .num (.finite q) => ratToNat q
  | _ => 0

/-- Per-slide texts as read back by generatePPTX (destructuring default []
when absent). -/
def slideTexts (v : JSValue) : List String :=
  match v.getField "texts" with
  | .arr xs => getStrings xs
  | _ => []

/-- generatePPTX: one slide per entry of the slides mapping, each filled by
the shared cycling policy. -/
def generatePPTX (path : String) (slides : JSValue) : RunOut :=
  ([.genPPTX path
      ((jsEntries slides).map (fun p => (p.1, mkLines (slideLines p.2) (slideTexts p.2))))],
   none)

/-- Per-sheet rows count as read back by generateXLSX. -/
def sheetRows (v : JSValue) : Nat :=
  match v.getField "rows" with
  | .num (.finite q) => ratToNat q
  | _ => 0

/-- Per-sheet texts rows as read back by generateXLSX (each element is an
array after validation). -/
def sheetTexts (v : JSValue) : List (List JSValue) :=
  match v.getField "texts" with
  | .arr xs => xs.map (fun r => match r with | .arr cs => cs | _ => [])
  | _ => []

/-- generateXLSX: one worksheet per entry of the sheets mapping, each body
filled by the shared cycling policy. -/
def generateXLSX (path : String) (sheets : JSValue) : RunOut :=
  ([.genXLSX path
      ((jsEntries sheets).map (fun p => (p.1, mkRows (sheetRows p.2) (sheetTexts p.2))))],
   none)

/-- The per-record key comparison of generateCSV: record keys must have the
same count as the first record keys and each must be a member of them. -/
def sameKeys (keys rk : List String) : Bool :=
  rk.length == keys.length && rk.all (fun k => keys.contains k)

/-- The key-homogeneity loop of generateCSV over the explicit data. -/
def csvCheckKeys (data : List JSValue) : Bool :=
  match data with
  | [] => true
  | first :: _ => data.all (fun r => sameKeys (jsKeys first) (jsKeys r))

/-- generateCSV: explicit non-empty data wins over rows (rows defaults to 5);
explicit data must be key-homogeneous, else the generator throws before
writing. -/
def generateCSV (path : String) (rows : Option ℚ) (data : Option (List JSValue)) : RunOut :=
  match data with
  | some ds =>
      if ds.length > 0 then
        if csvCheckKeys ds then ([.genCSV path (.explicitData ds)], none)
        else ([], some "All records must have the same keys and key count")
      else ([.genCSV path (.fake (ratToNat ((rows).getD 5)))], none)
  | none => ([.genCSV path (.fake (ratToNat ((rows).getD 5)))], none)

/-- generateImage reduced to its observable output request. -/
def generateImage (path : String) (width height : ℚ) (format : String) : RunOut :=
  ([.genImage path width height format], none)

/-- generateJPG: a 300x200 red JPEG. -/
def generateJPG (path : String) : RunOut := generateImage path 300 200 "jpeg"

/-- generatePNG: a 300x200 green PNG. -/
def generatePNG (path : String) : RunOut := generateImage path 300 200 "png"

/-- generateWAV: re-checks that lengthSeconds is a finite positive number,
then writes the PCM file. -/
def generateWAV (path : String) (lengthSeconds : JSNum) : RunOut :=
  if lengthSeconds.posFinite then ([.genWAV path lengthSeconds], none)
  else ([], some "lengthSeconds must be a positive number.")

/-- generateMP3: writes a WAV at path.replace(".mp3", ".wav") via
generateWAV, then transcodes it to an MP3 at path; the WAV is left in place. -/
def generateMP3 (path : String) (lengthSeconds : JSNum) : RunOut :=
  let wavPath := replaceFirst path ".mp3" ".wav"
  match generateWAV wavPath lengthSeconds with
  | (es, some e) => (es, some e)
  | (es, none) => (es ++ [.transcodeMP3 wavPath path], none)

/-- Options accepted by generateMP4; a missing field takes the documented
default. -/
structure VideoOpts where
  duration : Option JSNum
  resolution : Option String
  fps : Option JSNum
  background : Option String
  crf : Option JSNum
  pixelFormat : Option String
  preset : Option String
  silentAudio : Option Bool

/-- The empty options object. -/
def noVideoOpts : VideoOpts := ⟨none, none, none, none, none, none, none, none⟩

/-- The crf acceptance test of generateMP4: Number.isFinite(crf) and
0 <= crf <= 51 (the value 0 is accepted here). -/
def JSNum.crfOk : JSNum → Bool
  | .finite q => decide (0 ≤ q ∧ q ≤ 51)
  | _ => false

/-- The regular expression test for WIDTHxHEIGHT: one or more digits, the
letter x, one or more digits, anchored at both ends. -/
def isResChars (l : List Char) : Bool :=
  match l.dropWhile Char.isDigit with
  | 'x' :: r2 =>
      (!(l.takeWhile Char.isDigit).isEmpty) &&
      (!(r2.takeWhile Char.isDigit).isEmpty) &&
      (r2.dropWhile Char.isDigit).isEmpty
  | _ => false

/-- Resolution pattern test on a string. -/
def isResolution (s : String) : Bool := isResChars s.data

/-- generateMP4: resolves defaults (duration 1, resolution 1280x720, fps 30,
background black, crf 23, pixelFormat yuv420p, preset medium, silentAudio
true), re-validates duration, resolution, fps and crf, then renders. -/
def generateMP4 (path : String) (opts : VideoOpts) : RunOut :=
  let duration := opts.duration.getD (.finite 1)
  let resolution := opts.resolution.getD "1280x720"
  let fps := opts.fps.getD (.finite 30)
  let background := opts.background.getD "black"
  let crf := opts.crf.getD (.finite 23)
  let pixelFormat := opts.pixelFormat.getD "yuv420p"
  let preset := opts.preset.getD "medium"
  let silentAudio := opts.silentAudio.getD true
  if !duration.posFinite then ([], some "duration must be a positive number (seconds).")
  else if !isResolution resolution then
    ([], some "resolution must be a string like \"1280x720\".")
  else if !fps.posFinite then ([], some "fps must be a positive number.")
  else if !crf.crfOk then ([], some "crf must be in [0,51]. Lower is higher quality.")
  else ([.genMP4 path duration resolution fps background crf pixelFormat preset silentAudio],
        none)

/-- generateZIP. -/
def generateZIP (path : String) (files : List String) : RunOut :=
  ([.genZIP path files], none)

/-- generateRAR. -/
def generateRAR (path : String) (files : List String) (rarPath : String) : RunOut :=
  ([.genRAR path files rarPath], none)

/-- sendFileAndCleanup of the HTTP layer: streams the file then unlinks it. -/
def sendFileAndCleanup (path : String) : List Effect :=
  [.sendFile path, .unlink path]

/-! ### Per-item handler plumbing (generate.ts handlers) -/

/-- The uniform shape of every per-item handler body: every field of the
item is validated first; only a fully validated item performs effects. -/
def runStep (n : Except String α) (f : α → RunOut) : RunOut :=
  match n with
  | .error e => ([], some e)
  | .ok a => f a

/-- Singular-or-list expansion: Array.isArray(cfg) ? cfg : [cfg]. -/
def asItems : JSValue → List JSValue
  | .arr xs => xs
  | v => [v]

/-- The for (const [idx, item] of items.entries()) loop with rethrow: items
run in order, the first failing item ends the loop with its error. -/
def runItemsAux (step : Nat → JSValue → RunOut) : Nat → List JSValue → RunOut
  | _, [] => ([], none)
  | i, x :: xs =>
      match (step i x).2 with
      | some e => ((step i x).1, some e)
      | none =>
          ((step i x).1 ++ (runItemsAux step (i + 1) xs).1,
           (runItemsAux step (i + 1) xs).2)

/-- A whole fragment: expand singular-or-list, then run the items. -/
def runItems (step : Nat → JSValue → RunOut) (cfg : JSValue) : RunOut :=
  runItemsAux step 0 (asItems cfg)

/-- ensureDirFor followed by the generator call and the success log line
(the handlers all make the parent directory, invoke the generator, then log
Generated label and the arrow to the path). -/
def withDirAndLog (path label : String) (g : RunOut) : RunOut :=
  match g with
  | (es, some e) => (Effect.mkdirFor path :: es, some e)
  | (es, none) =>
      (Effect.mkdirFor path :: es ++ [Effect.notice ("Generated " ++ label ++ " → " ++ path)],
       none)

/-- An optional field: undefined yields none, anything else is validated. -/
def optField (v : JSValue) (f : JSValue → Except String α) : Except String (Option α) :=
  match v with
  | .undefined => .ok none
  | w => (f w).map some

/-- The shared texts validation: undefined, or an array of strings. -/
def normTexts (v : JSValue) (loc : String) : Except String (Option (List String)) :=
  match v with
  | .undefined => .ok none
  | .arr xs =>
      if allStrings xs then .ok (some (getStrings xs))
      else .error (loc ++ " must be an array of strings")
  | _ => .error (loc ++ " must be an array of strings")

/-! ### Normalizers and item steps, one per kind -/

/-- handleJSON field validation: path, pretty (default true), data. -/
def normalizeJSON (idx : Nat) (item : JSValue) :
    Except String (String × Bool × Option JSValue) := do
  let path ← expectString (item.getField "path") s!"json[{idx}].path"
  let pretty ←
    match item.getField "pretty" with
    | .undefined => pure true
    | v => expectBoolean v s!"json[{idx}].pretty"
  let data ←
    (let d := item.getField "data"
     if d.truthy && d.isObjectType then pure (some d)
     else if d.isUndefined then pure none
     else throw s!"json[{idx}].data must be an object")
  pure (path, pretty, data)

/-- One json item: validate, make the directory, generate, log. -/
def jsonItemStep (idx : Nat) (item : JSValue) : RunOut :=
  runStep (normalizeJSON idx item) fun (path, pretty, data) =>
    withDirAndLog path "JSON" (generateJSON path pretty data)

/-- handlePDF field validation: path, title, fontSize, lines, texts. -/
def normalizePDF (idx : Nat) (item : JSValue) :
    Except String (String × Option String × Option ℚ × ℚ × Option (List String)) := do
  let path ← expectString (item.getField "path") s!"pdf[{idx}].path"
  let title ← optField (item.getField "title") (fun v => expectString v s!"pdf[{idx}].title")
  let fontSize ← optField (item.getField "fontSize")
      (fun v => expectPositiveInt v s!"pdf[{idx}].fontSize")
  let lines ← expectPositiveInt (item.getField "lines") s!"pdf[{idx}].lines"
  let texts ← normTexts (item.getField "texts") s!"pdf[{idx}].texts"
  pure (path, title, fontSize, lines, texts)

/-- One pdf item. -/
def pdfItemStep (idx : Nat) (item : JSValue) : RunOut :=
  runStep (normalizePDF idx item) fun (path, title, fontSize, lines, texts) =>
    withDirAndLog path "PDF" (generatePDF path title fontSize lines texts)

/-- handleTXT field validation: path, lines, texts. -/
def normalizeTXT (idx : Nat) (item : JSValue) :
    Except String (String × ℚ × Option (List String)) := do
  let path ← expectString (item.getField "path") s!"txt[{idx}].path"
  let lines ← expectPositiveInt (item.getField "lines") s!"txt[{idx}].lines"
  let texts ← normTexts (item.getField "texts") s!"txt[{idx}].texts"
  pure (path, lines, texts)

/-- One txt item. -/
def txtItemStep (idx : Nat) (item : JSValue) : RunOut :=
  runStep (normalizeTXT idx item) fun (path, lines, texts) =>
    withDirAndLog path "TXT" (generateTXT path lines texts)

/-- handleDOCX field validation: path, lines, texts. -/
def normalizeDOCX (idx : Nat) (item : JSValue) :
    Except String (String × ℚ × Option (List String)) := do
  let path ← expectString (item.getField "path") s!"docx[{idx}].path"
  let lines ← expectPositiveInt (item.getField "lines") s!"docx[{idx}].lines"
  let texts ← normTexts (item.getField "texts") s!"docx[{idx}].texts"
  pure (path, lines, texts)

/-- One docx item. -/
def docxItemStep (idx : Nat) (item : JSValue) : RunOut :=
  runStep (normalizeDOCX idx item) fun (path, lines, texts) =>
    withDirAndLog path "DOCX" (generateDOCX path lines texts)

/-- The per-slide validation loop of handlePPTX. -/
def checkSlides (idx : Nat) : List (String × JSValue) → Except String Unit
  | [] => pure ()
  | (key, val) :: rest => do
      if !(val.truthy && val.isObjectType) then
        throw s!"pptx[{idx}].slides[\"{key}\"] must be an object"
      let _ ← expectPositiveInt (val.getField "lines") s!"pptx[{idx}].slides[\"{key}\"].lines"
      let _ ←
        match val.getField "texts" with
        | .undefined => pure ()
        | .arr xs =>
            if allStrings xs then pure ()
            else throw s!"pptx[{idx}].slides[\"{key}\"].texts must be an array of strings"
        | _ => throw s!"pptx[{idx}].slides[\"{key}\"].texts must be an array of strings"
      checkSlides idx rest

/-- handlePPTX field validation: path, then every slide entry. -/
def normalizePPTX (idx : Nat) (item : JSValue) : Except String (String × JSValue) := do
  let path ← expectString (item.getField "path") s!"pptx[{idx}].path"
  let slides := item.getField "slides"
  if !(slides.truthy && slides.isObjectType) then
    throw s!"pptx[{idx}].slides must be an object of \x7b [slideTitle]: \x7b lines: number; texts?: string[] \x7d \x7d"
  let _ ← checkSlides idx (jsEntries slides)
  pure (path, slides)

/-- One pptx item. -/
def pptxItemStep (idx : Nat) (item : JSValue) : RunOut :=
  runStep (normalizePPTX idx item) fun (path, slides) =>
    withDirAndLog path "PPTX" (generatePPTX path slides)

/-- The test texts.every(row => Array.isArray(row)). -/
def allArrays : List JSValue → Bool
  | [] => true
  | .arr _ :: xs => allArrays xs
  | _ => false

/-- The per-sheet validation loop of handleXLSX. -/
def checkSheets (idx : Nat) : List (String × JSValue) → Except String Unit
  | [] => pure ()
  | (name, val) :: rest => do
      if !(val.truthy && val.isObjectType) then
        throw s!"xlsx[{idx}].sheets[\"{name}\"] must be an object"
      let _ ← expectPositiveInt (val.getField "rows") s!"xlsx[{idx}].sheets[\"{name}\"].rows"
      let _ ←
        match val.getField "texts" with
        | .undefined => pure ()
        | .arr xs =>
            if allArrays xs then pure ()
            else throw s!"xlsx[{idx}].sheets[\"{name}\"].texts must be string[][]"
        | _ => throw s!"xlsx[{idx}].sheets[\"{name}\"].texts must be string[][]"
      checkSheets idx rest

/-- handleXLSX field validation: path, then every sheet entry. -/
def normalizeXLSX (idx : Nat) (item : JSValue) : Except String (String × JSValue) := do
  let path ← expectString (item.getField "path") s!"xlsx[{idx}].path"
  let sheets := item.getField "sheets"
  if !(sheets.truthy && sheets.isObjectType) then
    throw s!"xlsx[{idx}].sheets must be an object of \x7b [sheetName]: \x7b rows: number; texts?: string[][] \x7d \x7d"
  let _ ← checkSheets idx (jsEntries sheets)
  pure (path, sheets)

/-- One xlsx item. -/
def xlsxItemStep (idx : Nat) (item : JSValue) : RunOut :=
  runStep (normalizeXLSX idx item) fun (path, sheets) =>
    withDirAndLog path "XLSX" (generateXLSX path sheets)

/-- handleCSV field validation: path, rows, data. -/
def normalizeCSV (idx : Nat) (item : JSValue) :
    Except String (String × Option ℚ × Option (List JSValue)) := do
  let path ← expectString (item.getField "path") s!"csv[{idx}].path"
  let rows ← optField (item.getField "rows") (fun v => expectPositiveInt v s!"csv[{idx}].rows")
  let data ←
    match item.getField "data" with
    | .undefined => pure none
    | .arr xs =>
        if xs.all (fun r => r.truthy && r.isObjectType) then pure (some xs)
        else throw s!"csv[{idx}].data must be an array of objects"
    | _ => throw s!"csv[{idx}].data must be an array of objects"
  pure (path, rows, data)

/-- One csv item: after validation, a non-fatal notice is logged when both
rows and data were supplied, then the directory is made and the generator
runs. -/
def csvItemStep (idx : Nat) (item : JSValue) : RunOut :=
  runStep (normalizeCSV idx item) fun (path, rows, data) =>
    let pre : List Effect :=
      if rows.isSome && data.isSome then
        [.notice s!"csv[{idx}]: \x27data\x27 provided, \x27rows\x27 will be ignored."]
      else []
    let r := withDirAndLog path "CSV" (generateCSV path rows data)
    (pre ++ r.1, r.2)

/-- handleImages jpg item validation: path only. -/
def normalizeJPG (idx : Nat) (item : JSValue) : Except String String :=
  expectString (item.getField "path") s!"images.jpg[{idx}].path"

/-- One images.jpg item. -/
def jpgItemStep (idx : Nat) (item : JSValue) : RunOut :=
  runStep (normalizeJPG idx item) fun path =>
    withDirAndLog path "JPG" (generateJPG path)

/-- handleImages png item validation: path only. -/
def normalizePNG (idx : Nat) (item : JSValue) : Except String String :=
  expectString (item.getField "path") s!"images.png[{idx}].path"

/-- One images.png item. -/
def pngItemStep (idx : Nat) (item : JSValue) : RunOut :=
  runStep (normalizePNG idx item) fun path =>
    withDirAndLog path "PNG" (generatePNG path)

/-- The allowed custom image output formats. -/
def allowedImageFormats : List String :=
  ["jpeg", "png", "webp", "avif", "tiff", "gif", "heif"]

/-- images.custom field validation: path, create, output, width, height,
format. -/
def normalizeCustom (idx : Nat) (item : JSValue) :
    Except String (String × ℚ × ℚ × String) := do
  let path ← expectString (item.getField "path") s!"images.custom[{idx}].path"
  let create := item.getField "create"
  let output := item.getField "output"
  if !(create.truthy && create.isObjectType) then
    throw s!"images.custom[{idx}].create must be an object"
  if !(output.truthy && output.isObjectType) then
    throw s!"images.custom[{idx}].output must be an object"
  let width ← expectPositiveInt (create.getField "width") s!"images.custom[{idx}].create.width"
  let height ← expectPositiveInt (create.getField "height") s!"images.custom[{idx}].create.height"
  let format ←
    match output.getField "format" with
    | .str f =>
        if allowedImageFormats.contains f then pure f
        else throw (s!"images.custom[{idx}].output.format must be one of " ++
          String.intercalate ", " allowedImageFormats)
    | _ => throw s!"images.custom[{idx}].output.format must be a string"
  pure (path, width, height, format)

/-- One images.custom item. -/
def customItemStep (idx : Nat) (item : JSValue) : RunOut :=
  runStep (normalizeCustom idx item) fun (path, width, height, format) =>
    withDirAndLog path ("image (" ++ format ++ ")") (generateImage path width height format)

/-- handleAudio wav item validation: path and lengthSeconds. -/
def normalizeWAV (idx : Nat) (item : JSValue) : Except String (String × ℚ) := do
  let path ← expectString (item.getField "path") s!"audio.wav[{idx}].path"
  let len ← expectPositiveNumber (item.getField "lengthSeconds")
      s!"audio.wav[{idx}].lengthSeconds"
  pure (path, len)

/-- One audio.wav item. -/
def wavItemStep (idx : Nat) (item : JSValue) : RunOut :=
  runStep (normalizeWAV idx item)
    fun (path, len) => withDirAndLog path "WAV" (generateWAV path (.finite len))

/-- handleAudio mp3 item validation: path and lengthSeconds. -/
def normalizeMP3 (idx : Nat) (item : JSValue) : Except String (String × ℚ) := do
  let path ← expectString (item.getField "path") s!"audio.mp3[{idx}].path"
  let len ← expectPositiveNumber (item.getField "lengthSeconds")
      s!"audio.mp3[{idx}].lengthSeconds"
  pure (path, len)

/-- One audio.mp3 item. -/
def mp3ItemStep (idx : Nat) (item : JSValue) : RunOut :=
  runStep (normalizeMP3 idx item)
    fun (path, len) => withDirAndLog path "MP3" (generateMP3 path (.finite len))

/-- The allowed pixel formats. -/
def allowedPixelFormats : List String := ["yuv420p", "yuv422p", "yuv444p"]

/-- The allowed encoding presets. -/
def allowedPresets : List String :=
  ["ultrafast", "superfast", "veryfast", "faster", "fast", "medium", "slow", "slower", "veryslow"]

/-- handleVideo field validation: path, then each option when present, in
source order (duration, resolution, fps, background, crf, pixelFormat,
preset, silentAudio); the crf check first requires a positive number and
then the range. -/
def normalizeVideo (idx : Nat) (item : JSValue) : Except String (String × VideoOpts) := do
  let path ← expectString (item.getField "path") s!"video[{idx}].path"
  let duration ← optField (item.getField "duration")
      (fun v => expectPositiveNumber v s!"video[{idx}].duration")
  let resolution ← optField (item.getField "resolution")
      (fun v => do
        let r ← expectString v s!"video[{idx}].resolution"
        if isResolution r then pure r
        else throw s!"video[{idx}].resolution must be \"WIDTHxHEIGHT\"")
  let fps ← optField (item.getField "fps")
      (fun v => expectPositiveNumber v s!"video[{idx}].fps")
  let background ← optField (item.getField "background")
      (fun v => expectString v s!"video[{idx}].background")
  let crf ← optField (item.getField "crf")
      (fun v => do
        let c ← expectPositiveNumber v s!"video[{idx}].crf"
        if c < 0 ∨ c > 51 then throw s!"video[{idx}].crf must be within [0,51]"
        else pure c)
  let pixelFormat ← optField (item.getField "pixelFormat")
      (fun v => do
        let pf ← expectString v s!"video[{idx}].pixelFormat"
        if allowedPixelFormats.contains pf then pure pf
        else throw (s!"video[{idx}].pixelFormat must be one of " ++
          String.intercalate ", " allowedPixelFormats))
  let preset ← optField (item.getField "preset")
      (fun v => do
        let p ← expectString v s!"video[{idx}].preset"
        if allowedPresets.contains p then pure p
        else throw (s!"video[{idx}].preset must be one of " ++
          String.intercalate ", " allowedPresets))
  let silentAudio ← optField (item.getField "silentAudio")
      (fun v => expectBoolean v s!"video[{idx}].silentAudio")
  pure (path,
    ⟨duration.map (fun q => JSNum.finite q), resolution,
     fps.map (fun q => JSNum.finite q), background,
     crf.map (fun q => JSNum.finite q), pixelFormat, preset, silentAudio⟩)

/-- One video item. -/
def videoItemStep (idx : Nat) (item : JSValue) : RunOut :=
  runStep (normalizeVideo idx item) fun (path, opts) =>
    withDirAndLog path "MP4" (generateMP4 path opts)

/-- The shared files validation of the archive handlers. -/
def normFiles (v : JSValue) (loc : String) : Except String (List String) :=
  match v with
  | .arr xs =>
      if allStrings xs then pure (getStrings xs)
      else throw (loc ++ " must be an array of file paths")
  | _ => throw (loc ++ " must be an array of file paths")

/-- handleArchives zip item validation: path and files. -/
def normalizeZIP (idx : Nat) (item : JSValue) : Except String (String × List String) := do
  let path ← expectString (item.getField "path") s!"archives.zip[{idx}].path"
  let files ← normFiles (item.getField "files") s!"archives.zip[{idx}].files"
  pure (path, files)

/-- One archives.zip item. -/
def zipItemStep (idx : Nat) (item : JSValue) : RunOut :=
  runStep (normalizeZIP idx item)
    fun (path, files) => withDirAndLog path "ZIP" (generateZIP path files)

/-- handleArchives rar item validation: path, files, rarPath (default rar). -/
def normalizeRAR (idx : Nat) (item : JSValue) :
    Except String (String × List String × String) := do
  let path ← expectString (item.getField "path") s!"archives.rar[{idx}].path"
  let files ← normFiles (item.getField "files") s!"archives.rar[{idx}].files"
  let rarPath ←
    match item.getField "rarPath" with
    | .undefined => pure "rar"
    | v => expectString v s!"archives.rar[{idx}].rarPath"
  pure (path, files, rarPath)

/-- One archives.rar item. -/
def rarItemStep (idx : Nat) (item : JSValue) : RunOut :=
  runStep (normalizeRAR idx item)
    fun (path, files, rarPath) => withDirAndLog path "RAR" (generateRAR path files rarPath)

/-! ### Section handlers and the orchestrator (generate.ts runFromConfig) -/

/-- handleJSON over a fragment. -/
def handleJSON (cfg : JSValue) : RunOut := runItems jsonItemStep cfg

/-- handlePDF over a fragment. -/
def handlePDF (cfg : JSValue) : RunOut := runItems pdfItemStep cfg

/-- handleTXT over a fragment. -/
def handleTXT (cfg : JSValue) : RunOut := runItems txtItemStep cfg

/-- handleDOCX over a fragment. -/
def handleDOCX (cfg : JSValue) : RunOut := runItems docxItemStep cfg

/-- handlePPTX over a fragment. -/
def handlePPTX (cfg : JSValue) : RunOut := runItems pptxItemStep cfg

/-- handleXLSX over a fragment. -/
def handleXLSX (cfg : JSValue) : RunOut := runItems xlsxItemStep cfg

/-- handleCSV over a fragment. -/
def handleCSV (cfg : JSValue) : RunOut := runItems csvItemStep cfg

/-- handleVideo over a fragment. -/
def handleVideo (cfg : JSValue) : RunOut := runItems videoItemStep cfg

/-- The jpg part of handleImages. -/
def handleImagesJpg (cfg : JSValue) : RunOut := runItems jpgItemStep cfg

/-- The png part of handleImages. -/
def handleImagesPng (cfg : JSValue) : RunOut := runItems pngItemStep cfg

/-- The custom part of handleImages. -/
def handleImagesCustom (cfg : JSValue) : RunOut := runItems customItemStep cfg

/-- The wav part of handleAudio. -/
def handleAudioWav (cfg : JSValue) : RunOut := runItems wavItemStep cfg

/-- The mp3 part of handleAudio. -/
def handleAudioMp3 (cfg : JSValue) : RunOut := runItems mp3ItemStep cfg

/-- The zip part of handleArchives. -/
def handleArchivesZip (cfg : JSValue) : RunOut := runItems zipItemStep cfg

/-- The rar part of handleArchives. -/
def handleArchivesRar (cfg : JSValue) : RunOut := runItems rarItemStep cfg

/-- Sequential fail-fast combination of the already-scheduled runs: effects
accumulate in order and the first error stops everything after it. -/
def seqRuns : List RunOut → RunOut
  | [] => ([], none)
  | r :: rs =>
      match r.2 with
      | some e => (r.1, some e)
      | none => (r.1 ++ (seqRuns rs).1, (seqRuns rs).2)

/-- A guarded section or sub-section: run the handler only when the key is
present and truthy. -/
def subSection (cfg : JSValue) (k : String) (h : JSValue → RunOut) : RunOut :=
  if (cfg.getField k).truthy then h (cfg.getField k) else ([], none)

/-- handleImages: jpg, then png, then custom. -/
def handleImages (cfg : JSValue) : RunOut :=
  seqRuns [subSection cfg "jpg" handleImagesJpg,
           subSection cfg "png" handleImagesPng,
           subSection cfg "custom" handleImagesCustom]

/-- handleAudio: wav, then mp3. -/
def handleAudio (cfg : JSValue) : RunOut :=
  seqRuns [subSection cfg "wav" handleAudioWav,
           subSection cfg "mp3" handleAudioMp3]

/-- handleArchives: zip, then rar. -/
def handleArchives (cfg : JSValue) : RunOut :=
  seqRuns [subSection cfg "zip" handleArchivesZip,
           subSection cfg "rar" handleArchivesRar]

/-- The optional root outputDir hint, materialized before any section. -/
def outputDirEffects (cfg : JSValue) : List Effect :=
  match cfg.getField "outputDir" with
  | .str s =>
      if s ≠ "" ∧ jsTrim s ≠ "" then
        [.mkdirDirect s, .notice s!"Ensured outputDir: {s}"]
      else []
  | _ => []

/-- The eleven sections of a plan, in the fixed declared order. -/
def sectionRuns (cfg : JSValue) : List RunOut :=
  [subSection cfg "json" handleJSON,
   subSection cfg "pdf" handlePDF,
   subSection cfg "txt" handleTXT,
   subSection cfg "docx" handleDOCX,
   subSection cfg "pptx" handlePPTX,
   subSection cfg "xlsx" handleXLSX,
   subSection cfg "csv" handleCSV,
   subSection cfg "images" handleImages,
   subSection cfg "audio" handleAudio,
   subSection cfg "video" handleVideo,
   subSection cfg "archives" handleArchives]

/-- runFromConfig: the outputDir hint, then every section in order with the
fail-fast policy, then the Done log line on full success. -/
def runFromConfig (cfg : JSValue) : RunOut :=
  let pre := outputDirEffects cfg
  match seqRuns (sectionRuns cfg) with
  | (es, some e) => (pre ++ es, some e)
  | (es, none) => (pre ++ es ++ [.notice "Done."], none)

/-! ## Theorems for the claims -/

/-- C7: the positive-integer field validator rejects each of 0, -1, 1.5,
NaN, Infinity and the string "5" (no numeric coercion of strings), and
accepts each of 1 and 1000000. -/
theorem positive_int_validator_cases :
    expectPositiveInt (.num (.finite 0)) "lines" = .error "lines must be a positive integer" ∧
    expectPositiveInt (.num (.finite (-1))) "lines" = .error "lines must be a positive integer" ∧
    expectPositiveInt (.num (.finite (Rat.divInt 3 2))) "lines" =
      .error "lines must be a positive integer" ∧
    expectPositiveInt (.num .nan) "lines" = .error "lines must be a positive integer" ∧
    expectPositiveInt (.num .inf) "lines" = .error "lines must be a positive integer" ∧
    expectPositiveInt (.str "5") "lines" = .error "lines must be a positive integer" ∧
    expectPositiveInt (.num (.finite 1)) "lines" = .ok 1 ∧
    expectPositiveInt (.num (.finite 1000000)) "lines" = .ok 1000000 :=
  ⟨rfl, rfl, rfl, rfl, rfl, rfl, rfl, rfl⟩

/-- C1: the claim fails on the code. A plan item with crf = 0 is rejected by
handleVideo, whose crf validation first calls expectPositiveNumber (strictly
positive), so the inclusive lower bound 0 of its own subsequent range check
and range error message is unreachable; generateMP4, the generator the same
repository documents with crf in [0,51], accepts 0. Values in (0,51] pass
and values above 51 fail with the range message. -/
theorem crf_zero_rejected_by_plan_validation :
    (∀ q : ℚ,
      normalizeVideo 0 (.obj [("path", .str "v.mp4"), ("crf", .num (.finite q))]) =
        (if q ≤ 0 then .error "video[0].crf must be a positive number"
         else if q > 51 then .error "video[0].crf must be within [0,51]"
         else .ok ("v.mp4", { noVideoOpts with crf := some (.finite q) }))) ∧
    normalizeVideo 0 (.obj [("path", .str "v.mp4"), ("crf", .num (.finite 0))]) =
      .error "video[0].crf must be a positive number" ∧
    (handleVideo (.obj [("path", .str "v.mp4"), ("crf", .num (.finite 0))])).2 =
      some "video[0].crf must be a positive number" ∧
    (generateMP4 "v.mp4" { noVideoOpts with crf := some (.finite 0) }).2 = none ∧
    (handleVideo (.obj [("path", .str "v.mp4"), ("crf", .num (.finite 51))])).2 = none ∧
    normalizeVideo 0 (.obj [("path", .str "v.mp4"), ("crf", .num (.finite 52))]) =
      .error "video[0].crf must be within [0,51]" := by
  refine ⟨?_, rfl, rfl, rfl, rfl, rfl⟩
  intro q
  by_cases h1 : q ≤ 0
  · rw [if_pos h1]
    simp +decide [normalizeVideo, expectString, expectPositiveNumber, optField,
      JSValue.getField, jsTrim, List.lookup, h1, bind, Except.bind, Except.map, pure]
  · by_cases h2 : q > 51
    · have h3 : q < 0 ∨ 51 < q := Or.inr h2
      rw [if_neg h1, if_pos h2]
      simp +decide [normalizeVideo, expectString, expectPositiveNumber, optField,
        JSValue.getField, jsTrim, List.lookup, h1, h3, bind, Except.bind, Except.map, pure]
    · have h4 : ¬ q < 0 := fun hlt => h1 (le_of_lt hlt)
      have h3 : ¬ (q < 0 ∨ 51 < q) := by
        rintro (hc | hc)
        · exact h4 hc
        · exact h2 hc
      rw [if_neg h1, if_neg h2]
      simp +decide [normalizeVideo, expectString, expectPositiveNumber, optField,
        JSValue.getField, jsTrim, List.lookup, h1, h2, h3, h4, bind, Except.bind,
        Except.map, pure, Except.pure, noVideoOpts]

/-- C8: for every file kind, a fragment given as a bare request object is
processed exactly like the one-element list holding that object: the same
validation outcome and the same generator invocations. -/
theorem singleton_fragment_equiv (fs : List (String × JSValue)) :
    handleJSON (.obj fs) = handleJSON (.arr [.obj fs]) ∧
    handlePDF (.obj fs) = handlePDF (.arr [.obj fs]) ∧
    handleTXT (.obj fs) = handleTXT (.arr [.obj fs]) ∧
    handleDOCX (.obj fs) = handleDOCX (.arr [.obj fs]) ∧
    handlePPTX (.obj fs) = handlePPTX (.arr [.obj fs]) ∧
    handleXLSX (.obj fs) = handleXLSX (.arr [.obj fs]) ∧
    handleCSV (.obj fs) = handleCSV (.arr [.obj fs]) ∧
    handleVideo (.obj fs) = handleVideo (.arr [.obj fs]) ∧
    handleImagesJpg (.obj fs) = handleImagesJpg (.arr [.obj fs]) ∧
    handleImagesPng (.obj fs) = handleImagesPng (.arr [.obj fs]) ∧
    handleImagesCustom (.obj fs) = handleImagesCustom (.arr [.obj fs]) ∧
    handleAudioWav (.obj fs) = handleAudioWav (.arr [.obj fs]) ∧
    handleAudioMp3 (.obj fs) = handleAudioMp3 (.arr [.obj fs]) ∧
    handleArchivesZip (.obj fs) = handleArchivesZip (.arr [.obj fs]) ∧
    handleArchivesRar (.obj fs) = handleArchivesRar (.arr [.obj fs]) :=
  ⟨rfl, rfl, rfl, rfl, rfl, rfl, rfl, rfl, rfl, rfl, rfl, rfl, rfl, rfl, rfl⟩

/-- C10: an explicitly supplied empty texts array behaves exactly like an
omitted texts field in every content-cycling generator: every requested
line or row is synthetic filler, and the cycling branch with its modulo is
never taken. -/
theorem empty_texts_like_omitted (path t sheet : String) (title : Option String)
    (fontSize lines : ℚ) (ln rv : JSValue) (n : Nat) :
    mkLines n [] = (List.range n).map ContentLine.synthetic ∧
    mkRows n [] = (List.range n).map RowOut.fakeRow ∧
    generateTXT path lines none = generateTXT path lines (some []) ∧
    generateTXT path lines (some []) =
      ([.genTXT path ((List.range (ratToNat lines)).map ContentLine.synthetic)], none) ∧
    generatePDF path title fontSize lines none =
      generatePDF path title fontSize lines (some []) ∧
    generateDOCX path lines none = generateDOCX path lines (some []) ∧
    generatePPTX path (.obj [(t, .obj [("lines", ln)])]) =
      generatePPTX path (.obj [(t, .obj [("lines", ln), ("texts", .arr [])])]) ∧
    generateXLSX path (.obj [(sheet, .obj [("rows", rv)])]) =
      generateXLSX path (.obj [(sheet, .obj [("rows", rv), ("texts", .arr [])])]) :=
  ⟨rfl, rfl, rfl, rfl, rfl, rfl, rfl, rfl⟩

/-- C2: fail-fast. Once a prefix of the items of a section has failed,
appending further items changes nothing (they are not processed); once a
prefix of the sections has failed, appending further sections changes
nothing; concretely, a plan whose txt section fails at item 1 runs exactly
like the plan truncated right after that item, with the trailing txt item
and the whole video section never attempted. -/
theorem failFast_aborts_rest :
    (∀ (step : Nat → JSValue → RunOut) (i : Nat) (xs ys : List JSValue),
      (runItemsAux step i xs).2.isSome = true →
      runItemsAux step i (xs ++ ys) = runItemsAux step i xs) ∧
    (∀ rs ss : List RunOut, (seqRuns rs).2.isSome = true →
      seqRuns (rs ++ ss) = seqRuns rs) ∧
    runFromConfig (.obj [("txt", .arr
        [.obj [("path", .str "a.txt"), ("lines", .num (.finite 1))],
         .obj [("path", .str "b.txt")],
         .obj [("path", .str "c.txt"), ("lines", .num (.finite 1))]]),
      ("video", .obj [("path", .str "v.mp4")])]) =
      runFromConfig (.obj [("txt", .arr
        [.obj [("path", .str "a.txt"), ("lines", .num (.finite 1))],
         .obj [("path", .str "b.txt")]])]) ∧
    (runFromConfig (.obj [("txt", .arr
        [.obj [("path", .str "a.txt"), ("lines", .num (.finite 1))],
         .obj [("path", .str "b.txt")]])])).2.isSome = true := by
  refine ⟨?_, ?_, rfl, rfl⟩
  · intro step i xs
    induction xs generalizing i with
    | nil => intro ys h; simp [runItemsAux] at h
    | cons x xs ih =>
        intro ys h
        rw [List.cons_append]
        simp only [runItemsAux] at h ⊢
        cases hstep : (step i x).2 with
        | some e => simp only [hstep]
        | none =>
            simp only [hstep] at h ⊢
            rw [ih (i + 1) ys h]
  · intro rs
    induction rs with
    | nil => intro ss h; simp [seqRuns] at h
    | cons r rs ih =>
        intro ss h
        rw [List.cons_append]
        simp only [seqRuns] at h ⊢
        cases hr : r.2 with
        | some e => simp only [hr]
        | none =>
            simp only [hr] at h ⊢
            rw [ih ss h]

/-- C2 witness: the general parts applied at a failing one-item prefix. -/
theorem failFast_aborts_rest_witness :
    (runItemsAux txtItemStep 0 [.obj [("path", .str "b.txt")]]).2.isSome = true ∧
    runItemsAux txtItemStep 0
        ([.obj [("path", .str "b.txt")]] ++
         [.obj [("path", .str "c.txt"), ("lines", .num (.finite 1))]]) =
      runItemsAux txtItemStep 0 [.obj [("path", .str "b.txt")]] :=
  ⟨rfl, failFast_aborts_rest.1 txtItemStep 0 _ _ rfl⟩

/-- Validation first: a failed normalization performs no effect. -/
theorem runStep_error {α : Type} {n : Except String α} {f : α → RunOut} {e : String}
    (h : n = .error e) : runStep n f = ([], some e) := by
  rw [h]; rfl

/-- C3: all field validation of a plan item happens before any side effect
of that item: whenever an item fails normalization, its step performs no
effect at all, for every kind; and the malformed plan with pdf lines -1
fails at location pdf[0].lines with an empty effect trace, so the parent
directory of x.pdf is never created. -/
theorem validation_before_side_effects :
    (∀ (idx : Nat) (item : JSValue) (e : String),
      normalizePDF idx item = .error e → pdfItemStep idx item = ([], some e)) ∧
    (∀ (idx : Nat) (item : JSValue) (e : String),
      normalizeJSON idx item = .error e → jsonItemStep idx item = ([], some e)) ∧
    (∀ (idx : Nat) (item : JSValue) (e : String),
      normalizeTXT idx item = .error e → txtItemStep idx item = ([], some e)) ∧
    (∀ (idx : Nat) (item : JSValue) (e : String),
      normalizeDOCX idx item = .error e → docxItemStep idx item = ([], some e)) ∧
    (∀ (idx : Nat) (item : JSValue) (e : String),
      normalizePPTX idx item = .error e → pptxItemStep idx item = ([], some e)) ∧
    (∀ (idx : Nat) (item : JSValue) (e : String),
      normalizeXLSX idx item = .error e → xlsxItemStep idx item = ([], some e)) ∧
    (∀ (idx : Nat) (item : JSValue) (e : String),
      normalizeCSV idx item = .error e → csvItemStep idx item = ([], some e)) ∧
    (∀ (idx : Nat) (item : JSValue) (e : String),
      normalizeVideo idx item = .error e → videoItemStep idx item = ([], some e)) ∧
    (∀ (idx : Nat) (item : JSValue) (e : String),
      normalizeCustom idx item = .error e → customItemStep idx item = ([], some e)) ∧
    (∀ (idx : Nat) (item : JSValue) (e : String),
      normalizeJPG idx item = .error e → jpgItemStep idx item = ([], some e)) ∧
    (∀ (idx : Nat) (item : JSValue) (e : String),
      normalizePNG idx item = .error e → pngItemStep idx item = ([], some e)) ∧
    (∀ (idx : Nat) (item : JSValue) (e : String),
      normalizeWAV idx item = .error e → wavItemStep idx item = ([], some e)) ∧
    (∀ (idx : Nat) (item : JSValue) (e : String),
      normalizeMP3 idx item = .error e → mp3ItemStep idx item = ([], some e)) ∧
    (∀ (idx : Nat) (item : JSValue) (e : String),
      normalizeZIP idx item = .error e → zipItemStep idx item = ([], some e)) ∧
    (∀ (idx : Nat) (item : JSValue) (e : String),
      normalizeRAR idx item = .error e → rarItemStep idx item = ([], some e)) ∧
    runFromConfig (.obj [("pdf", .obj [("path", .str "x.pdf"),
        ("lines", .num (.finite (-1)))])]) =
      ([], some "pdf[0].lines must be a positive integer") :=
  ⟨fun _ _ _ h => runStep_error h, fun _ _ _ h => runStep_error h,
   fun _ _ _ h => runStep_error h, fun _ _ _ h => runStep_error h,
   fun _ _ _ h => runStep_error h, fun _ _ _ h => runStep_error h,
   fun _ _ _ h => runStep_error h, fun _ _ _ h => runStep_error h,
   fun _ _ _ h => runStep_error h, fun _ _ _ h => runStep_error h,
   fun _ _ _ h => runStep_error h, fun _ _ _ h => runStep_error h,
   fun _ _ _ h => runStep_error h, fun _ _ _ h => runStep_error h,
   fun _ _ _ h => runStep_error h, rfl⟩

/-- C3 witness: the pdf part applied at the malformed item of scenario 5. -/
theorem validation_before_side_effects_witness :
    normalizePDF 0 (.obj [("path", .str "x.pdf"), ("lines", .num (.finite (-1)))]) =
      .error "pdf[0].lines must be a positive integer" ∧
    pdfItemStep 0 (.obj [("path", .str "x.pdf"), ("lines", .num (.finite (-1)))]) =
      ([], some "pdf[0].lines must be a positive integer") :=
  ⟨rfl, validation_before_side_effects.1 0 _ _ rfl⟩

/-- When the pattern does not occur, replacement returns the input list. -/
theorem listReplaceFirst_of_no_match (pat rep : List Char) (s : List Char)
    (h : listHasSubstr pat s = false) : listReplaceFirst pat rep s = s := by
  induction s with
  | nil => simp [listReplaceFirst]
  | cons c cs ih =>
      simp only [listHasSubstr, Bool.or_eq_false_iff] at h
      simp [listReplaceFirst, h.1, ih h.2]

/-- String version of the no-match replace lemma. -/
theorem replaceFirst_of_no_match (s pat rep : String)
    (h : hasSubstr s pat = false) : replaceFirst s pat rep = s := by
  cases s with
  | mk data => exact congrArg String.mk (listReplaceFirst_of_no_match _ _ _ h)

/-- C9: every successful generateMP3 call with output path P also writes a
WAV at the path obtained from P by replacing the first occurrence of
".mp3" with ".wav"; that WAV is never deleted (no unlink appears in the
trace); and when P does not contain ".mp3", the WAV path is P itself, so
the later transcode targets the same path. -/
theorem mp3_writes_sibling_wav (path : String) (len : JSNum)
    (h : len.posFinite = true) :
    generateMP3 path len =
      ([.genWAV (replaceFirst path ".mp3" ".wav") len,
        .transcodeMP3 (replaceFirst path ".mp3" ".wav") path], none) ∧
    (∀ q, Effect.unlink q ∉ (generateMP3 path len).1) ∧
    (hasSubstr path ".mp3" = false → replaceFirst path ".mp3" ".wav" = path) := by
  have hmp3 : generateMP3 path len =
      ([.genWAV (replaceFirst path ".mp3" ".wav") len,
        .transcodeMP3 (replaceFirst path ".mp3" ".wav") path], none) := by
    simp [generateMP3, generateWAV, h]
  refine ⟨hmp3, ?_, replaceFirst_of_no_match path ".mp3" ".wav"⟩
  intro q
  rw [hmp3]
  simp

/-- C9 witness: a concrete successful call with path a.mp3. -/
theorem mp3_writes_sibling_wav_witness :
    JSNum.posFinite (.finite 2) = true ∧
    generateMP3 "a.mp3" (.finite 2) =
      ([.genWAV "a.wav" (.finite 2), .transcodeMP3 "a.wav" "a.mp3"], none) := by
  refine ⟨rfl, ?_⟩
  rw [(mp3_writes_sibling_wav "a.mp3" (.finite 2) rfl).1]
  rfl

/-- C4: a content-cycling generator given non-empty texts of length L and a
requested count produces the sequence whose element at every position i
below the count is texts[i mod L]; in particular position 0 is texts[0]
whether the count is larger or smaller than L. Stated for the content
builder shared by the TXT, PDF and DOCX generators, together with the
equations tying those generators to it. -/
theorem cyclic_content_fill (path : String) (title : Option String)
    (fontSize : Option ℚ) (lines : ℚ) (texts : List String) (i : Nat)
    (hne : texts ≠ []) (hi : i < ratToNat lines) :
    generateTXT path lines (some texts) =
      ([.genTXT path (mkLines (ratToNat lines) texts)], none) ∧
    generatePDF path title fontSize lines (some texts) =
      ([.genPDF path (title.getD "Fake PDF") (fontSize.getD 20)
          (mkLines (ratToNat lines) texts)], none) ∧
    (mkLines (ratToNat lines) texts).get? i =
      some (.given (texts.getD (i % texts.length) "")) ∧
    (mkLines (ratToNat lines) texts).get? 0 = some (.given (texts.getD 0 "")) := by
  have hlen : ¬ texts.length = 0 := by simpa using hne
  have key : ∀ j, j < ratToNat lines →
      (mkLines (ratToNat lines) texts).get? j =
        some (.given (texts.getD (j % texts.length) "")) := by
    intro j hj
    rw [mkLines, if_neg hlen, List.get?_eq_getElem?, List.getElem?_map,
      List.getElem?_range hj]
    rfl
  have h0 := key 0 (Nat.lt_of_le_of_lt (Nat.zero_le i) hi)
  rw [Nat.zero_mod] at h0
  exact ⟨rfl, rfl, key i hi, h0⟩

/-- C4 witness: three lines from two texts; positions 0, 1, 2 hold x, y, x. -/
theorem cyclic_content_fill_witness :
    (["x", "y"] : List String) ≠ [] ∧ 2 < ratToNat 3 ∧
    (mkLines (ratToNat 3) ["x", "y"]).get? 2 =
      some (.given ((["x", "y"] : List String).getD (2 % 2) "")) ∧
    (mkLines (ratToNat 3) ["x", "y"]).get? 0 =
      some (.given ((["x", "y"] : List String).getD 0 "")) := by
  refine ⟨by simp, by decide, ?_, ?_⟩
  · exact (cyclic_content_fill "a.txt" none (some 20) 3 ["x", "y"] 2 (by simp) (by decide)).2.2.1
  · exact (cyclic_content_fill "a.txt" none (some 20) 3 ["x", "y"] 2 (by simp) (by decide)).2.2.2

/-- The boolean key comparison agrees with key-set equality on duplicate-free
key lists (JavaScript object keys are always duplicate-free). -/
theorem sameKeys_iff (keys rk : List String) (h1 : keys.Nodup) (h2 : rk.Nodup) :
    sameKeys keys rk = true ↔ ∀ k, k ∈ rk ↔ k ∈ keys := by
  unfold sameKeys
  rw [Bool.and_eq_true, List.all_eq_true, beq_iff_eq]
  constructor
  · rintro ⟨hlen, hmem⟩ k
    have hsub : rk ⊆ keys := by
      intro a ha
      have := hmem a ha
      simpa using this
    have hperm : rk.Perm keys :=
      (h2.subperm hsub).perm_of_length_le (le_of_eq hlen.symm)
    exact hperm.mem_iff
  · intro hiff
    have hsub1 : rk ⊆ keys := fun a ha => (hiff a).mp ha
    have hsub2 : keys ⊆ rk := fun a ha => (hiff a).mpr ha
    have hperm : rk.Perm keys := (h2.subperm hsub1).antisymm (h1.subperm hsub2)
    refine ⟨hperm.length_eq, fun a ha => ?_⟩
    simpa using hsub1 ha

/-- C6: for explicit non-empty CSV data whose records have duplicate-free
keys, generation passes the key check exactly when every record exposes the
same key set (order-insensitive, count and membership both checked) as the
first record, and fails otherwise. -/
theorem csv_key_homogeneity (path : String) (rows : Option ℚ) (first : JSValue)
    (rest : List JSValue)
    (hnd : ∀ r ∈ first :: rest, (jsKeys r).Nodup) :
    (generateCSV path rows (some (first :: rest))).2 = none ↔
      ∀ r ∈ first :: rest, ∀ k, k ∈ jsKeys r ↔ k ∈ jsKeys first := by
  have hred : (generateCSV path rows (some (first :: rest))).2 = none ↔
      csvCheckKeys (first :: rest) = true := by
    simp only [generateCSV]
    cases hc : csvCheckKeys (first :: rest) <;> simp [hc]
  rw [hred]
  unfold csvCheckKeys
  rw [List.all_eq_true]
  constructor
  · intro H r hr k
    exact (sameKeys_iff (jsKeys first) (jsKeys r)
      (hnd first (List.mem_cons_self first rest)) (hnd r hr)).mp (H r hr) k
  · intro H r hr
    exact (sameKeys_iff (jsKeys first) (jsKeys r)
      (hnd first (List.mem_cons_self first rest)) (hnd r hr)).mpr (H r hr)

/-- C6 witness: two records with the identical key set pass the check. -/
theorem csv_key_homogeneity_witness :
    (∀ r ∈ [JSValue.obj [("a", .num (.finite 1))], JSValue.obj [("a", .num (.finite 2))]],
      (jsKeys r).Nodup) ∧
    (generateCSV "f.csv" none
        (some [.obj [("a", .num (.finite 1))], .obj [("a", .num (.finite 2))]])).2 = none := by
  have hnd : ∀ r ∈ [JSValue.obj [("a", .num (.finite 1))],
      JSValue.obj [("a", .num (.finite 2))]], (jsKeys r).Nodup := by
    intro r hr
    simp only [List.mem_cons, List.not_mem_nil, or_false] at hr
    rcases hr with rfl | rfl <;> simp [jsKeys]
  refine ⟨hnd, (csv_key_homogeneity "f.csv" none _ _ hnd).mpr ?_⟩
  intro r hr k
  simp only [List.mem_cons, List.not_mem_nil, or_false] at hr
  rcases hr with rfl | rfl <;> exact Iff.rfl

/-- C5: for every CSV item that validates with both a rows count and
non-empty explicit data whose keys are homogeneous, the explicit data wins:
the run emits the non-fatal rows-ignored notice, makes the directory,
writes exactly the data records, logs success, and throws no error. -/
theorem csv_data_precedence (idx : Nat) (item : JSValue) (path : String)
    (rows : ℚ) (ds : List JSValue)
    (hn : normalizeCSV idx item = .ok (path, some rows, some ds))
    (hne : ds ≠ []) (hkeys : csvCheckKeys ds = true) :
    csvItemStep idx item =
      ([.notice s!"csv[{idx}]: \x27data\x27 provided, \x27rows\x27 will be ignored.",
        .mkdirFor path, .genCSV path (.explicitData ds),
        .notice ("Generated CSV → " ++ path)], none) := by
  rcases List.exists_cons_of_ne_nil hne with ⟨d, ds2, rfl⟩
  simp only [csvItemStep]
  rw [hn]
  simp [runStep, generateCSV, hkeys, withDirAndLog]

/-- C5 witness: rows 5 together with a single explicit record; the record
wins, one row is written, the notice is emitted, and nothing fails. -/
theorem csv_data_precedence_witness :
    normalizeCSV 0 (.obj [("path", .str "f.csv"), ("rows", .num (.finite 5)),
        ("data", .arr [.obj [("a", .num (.finite 1))]])]) =
      .ok ("f.csv", some 5, some [.obj [("a", .num (.finite 1))]]) ∧
    csvItemStep 0 (.obj [("path", .str "f.csv"), ("rows", .num (.finite 5)),
        ("data", .arr [.obj [("a", .num (.finite 1))]])]) =
      ([.notice "csv[0]: \x27data\x27 provided, \x27rows\x27 will be ignored.",
        .mkdirFor "f.csv",
        .genCSV "f.csv" (.explicitData [.obj [("a", .num (.finite 1))]]),
        .notice ("Generated CSV → " ++ "f.csv")], none) := by
  refine ⟨rfl, ?_⟩
  exact csv_data_precedence 0 _ "f.csv" 5 [.obj [("a", .num (.finite 1))]] rfl
    (by simp) rfl

end FileFabric
